import Mathlib

/-!
A shallow embedding of the WebUDP peer engine (src/Wu.cpp) in Lean 4.

Conventions of the embedding:
* C machine integers are modelled as `Nat`, with an explicit `% 2^32`
  where the source increments a `uint32_t` counter (the SCTP tsn) or
  subtracts 1 from one (the remote tsn on INIT).
* C doubles holding seconds (ttl, heartbeat countdown, clock) are
  modelled as `Rat`; the engine only adds, subtracts and compares them.
* Byte buffers are `List Nat`.
* The OpenSSL session is abstracted to the one bit the engine reads:
  whether the DTLS handshake has finished (SSL_is_init_finished).
* Outbound SCTP traffic is modelled structurally: each WuSendSctp call
  contributes the (header, chunk) pair it would serialize, subject to
  the TLSSend gate of the source.
* Code of the repository that lives outside src/ (WuSctp.h constants,
  WuSdp, WuDataChannel, WuQueue, WuStun helpers) is modelled from the
  spec where needed; each such definition is marked in its doc comment.
-/

/-- Client states, in the order of the C enum WuClientState. -/
inductive WuClientState
  | dead
  | waitingRemoval
  | dtlsHandshake
  | sctpEstablished
  | dataChannelOpen
deriving DecidableEq, Repr

/-- Numeric value of the C enum, used wherever the source compares states with `<`. -/
def WuClientState.rank : WuClientState → Nat
  | .dead => 0
  | .waitingRemoval => 1
  | .dtlsHandshake => 2
  | .sctpEstablished => 3
  | .dataChannelOpen => 4

/-- IPv4 host and UDP port (WuAddress). -/
structure WuAddress where
  host : Nat
  port : Nat
deriving DecidableEq, Repr

/-- kMaxClientTtl from Wu.cpp. -/
def kMaxClientTtl : Rat := 8

/-- heartbeatInterval from Wu.cpp. -/
def heartbeatInterval : Rat := 4

/-- 2^32, the modulus of the uint32 counters. -/
def u32Mod : Nat := 4294967296

/-- One client slot (struct WuClient). The OpenSSL handles are reduced to
the handshake-finished bit; the user pointer is omitted. -/
structure WuClient where
  id : Nat
  serverUser : List Nat
  serverPassword : List Nat
  remoteUser : List Nat
  remoteUserPassword : List Nat
  address : WuAddress
  state : WuClientState
  localSctpPort : Nat
  remoteSctpPort : Nat
  sctpVerificationTag : Nat
  remoteTsn : Nat
  tsn : Nat
  ttl : Rat
  nextHeartbeat : Rat
  sslInitFinished : Bool
deriving DecidableEq, Repr

/-- Event kinds of WuEvent. -/
inductive WuEventType
  | clientJoin
  | clientLeave
  | textData
  | binaryData
deriving DecidableEq, Repr

/-- WuEvent; the client pointer becomes the client id, the payload a byte list. -/
structure WuEvent where
  type : WuEventType
  clientId : Nat
  data : List Nat
deriving DecidableEq, Repr

/-- SCTP common header fields the engine fills in (SctpPacket).
The field destionationPort keeps the spelling of the source. -/
structure SctpPacket where
  sourcePort : Nat
  destionationPort : Nat
  verificationTag : Nat
deriving DecidableEq, Repr

/-- The chunk payload union of SctpChunk, written as a tagged variant:
one constructor per chunk type the codec supports. -/
inductive SctpChunkBody
  | data (tsn streamId streamSeq protoId : Nat) (userData : List Nat)
  | init (initiateTag windowCredit numOutboundStreams numInboundStreams initialTsn : Nat)
  | initAck (initiateTag windowCredit numOutboundStreams numInboundStreams initialTsn : Nat)
  | sack (cumulativeTsnAck advRecvWindow numGapAckBlocks numDupTsn : Nat)
  | heartbeat (heartbeatInfo : List Nat)
  | heartbeatAck (heartbeatInfo : List Nat)
  | abortChunk
  | shutdown (cumulativeTsnAck : Nat)
  | cookieEcho
  | cookieAck
  | forwardTsn (newCumulativeTsn : Nat)
deriving DecidableEq, Repr

/-- A parsed SCTP chunk: flags, wire length field, and the typed payload. -/
structure SctpChunk where
  flags : Nat
  length : Nat
  body : SctpChunkBody
deriving DecidableEq, Repr

/-- Modelled from the spec: chunk header is 4 bytes, length counts the
header (SctpChunkLength of WuSctp.h, which is not under src/). -/
def SctpChunkLength (n : Nat) : Nat := 4 + n

/-- Modelled from the spec: a DATA chunk adds 12 bytes of fixed fields
after the header (SctpDataChunkLength of WuSctp.h, not under src/). -/
def SctpDataChunkLength (n : Nat) : Nat := 16 + n

/-- Modelled from the spec: minimal INIT-ACK length, init fields plus a
stateless cookie parameter (kSctpMinInitAckLength of WuSctp.h, not under
src/; its exact value is immaterial to the engine logic). -/
def kSctpMinInitAckLength : Nat := SctpChunkLength 24

/-- Modelled from the spec: the constant advertised receiver window
(kSctpDefaultBufferSpace of WuSctp.h, not under src/; exact value
immaterial to the engine logic). -/
def kSctpDefaultBufferSpace : Nat := 262144

/-- Modelled from the spec: DATA flags BEGIN 0x02, END 0x01, UNORDERED 0x04
(kSctpFlagCompleteUnreliable of WuSctp.h, not under src/). -/
def kSctpFlagCompleteUnreliable : Nat := 7

/-- Modelled from the spec: PPID 50 is UTF-8 text (DCProto_String of
WuDataChannel.h, not under src/). -/
def DCProto_String : Nat := 50

/-- Modelled from the spec: PPID 51 is binary (DCProto_Binary of
WuDataChannel.h, not under src/). -/
def DCProto_Binary : Nat := 51

/-- Modelled from the spec: PPID 53 is DCEP control (DCProto_Control of
WuDataChannel.h, not under src/). -/
def DCProto_Control : Nat := 53

/-- Modelled from the spec: DCEP OPEN opcode 0x03 (WuDataChannel.h, not under src/). -/
def DCMessage_Open : Nat := 3

/-- Modelled from the spec: DCEP ACK opcode 0x02 (WuDataChannel.h, not under src/). -/
def DCMessage_Ack : Nat := 2

/-- Modelled from the spec: ParseDataChannelControlPacket (WuDataChannel.cpp,
not under src/) reads the one-byte DCEP message type at the front of the
user data. -/
def ParseDataChannelControlPacket (userData : List Nat) : Nat := userData.headD 0

/-- TLSSend of Wu.cpp, reduced to its gate: the record is dropped unless the
client state is at least DTLSHandshake and the DTLS handshake has finished;
otherwise the serialized packet goes out. -/
def TLSSend (client : WuClient) (packet : SctpPacket) (chunk : SctpChunk) :
    List (SctpPacket × SctpChunk) :=
  if client.state.rank < WuClientState.dtlsHandshake.rank ∨ client.sslInitFinished = false
  then []
  else [(packet, chunk)]

/-- WuSendSctp of Wu.cpp: serialize one packet (kept structural here) and
hand it to TLSSend. -/
def WuSendSctp (client : WuClient) (packet : SctpPacket) (chunk : SctpChunk) :
    List (SctpPacket × SctpChunk) :=
  TLSSend client packet chunk

/-- Result of processing one SCTP chunk: the mutated client, the WuSendSctp
outputs in order, the events pushed in order, and whether the loop in
WuHandleSctp stops (the break after INIT or the return after ABORT). -/
structure SctpHandleResult where
  client : WuClient
  out : List (SctpPacket × SctpChunk)
  events : List WuEvent
  stop : Bool
deriving DecidableEq, Repr

/-- The Sctp_Data arm of the chunk loop in WuHandleSctp (Wu.cpp lines
227-299): bump remoteTsn to the max, reset ttl, route by PPID (DCEP OPEN
replies with a DCEP ACK, may open the channel and push ClientJoin; PPIDs 50
and 51 push data events; other PPIDs are ignored), then always reply with a
SACK carrying the updated remoteTsn and zero gap blocks. -/
def processDataChunk (sctpPacket : SctpPacket) (c : WuClient)
    (tsn streamId _streamSeq protoId : Nat) (userData : List Nat) : SctpHandleResult :=
  let c1 : WuClient := { c with remoteTsn := Nat.max tsn c.remoteTsn, ttl := kMaxClientTtl }
  let step :=
    if protoId = DCProto_Control then
      if ParseDataChannelControlPacket userData = DCMessage_Open then
        let c2 : WuClient := { c1 with remoteSctpPort := sctpPacket.sourcePort }
        let response : SctpPacket :=
          { sourcePort := sctpPacket.destionationPort,
            destionationPort := sctpPacket.sourcePort,
            verificationTag := c2.sctpVerificationTag }
        let rc : SctpChunk :=
          { flags := kSctpFlagCompleteUnreliable,
            length := SctpDataChunkLength 1,
            body := .data c2.tsn streamId 0 DCProto_Control [DCMessage_Ack] }
        let c3 : WuClient := { c2 with tsn := (c2.tsn + 1) % u32Mod }
        let opened :=
          if c3.state ≠ WuClientState.dataChannelOpen then
            ({ c3 with state := WuClientState.dataChannelOpen },
             [({ type := WuEventType.clientJoin, clientId := c3.id, data := [] } : WuEvent)])
          else (c3, [])
        (opened.1, WuSendSctp opened.1 response rc, opened.2)
      else (c1, [], [])
    else if protoId = DCProto_String then
      (c1, [],
        [({ type := WuEventType.textData, clientId := c1.id, data := userData } : WuEvent)])
    else if protoId = DCProto_Binary then
      (c1, [],
        [({ type := WuEventType.binaryData, clientId := c1.id, data := userData } : WuEvent)])
    else (c1, [], [])
  let c4 := step.1
  let sackPacket : SctpPacket :=
    { sourcePort := sctpPacket.destionationPort,
      destionationPort := sctpPacket.sourcePort,
      verificationTag := c4.sctpVerificationTag }
  let sackChunk : SctpChunk :=
    { flags := 0, length := SctpChunkLength 12,
      body := .sack c4.remoteTsn kSctpDefaultBufferSpace 0 0 }
  { client := c4,
    out := step.2.1 ++ WuSendSctp c4 sackPacket sackChunk,
    events := step.2.2,
    stop := false }

/-- The Sctp_Init arm (Wu.cpp lines 300-320): the INIT-ACK packet header
carries the initiate tag received in the INIT, that same received tag is
stored as sctpVerificationTag, remoteTsn becomes initialTsn - 1 (uint32
wraparound), and the INIT-ACK chunk carries a freshly drawn random tag
(WuRandomU32, passed in here as freshTag) with mirrored stream counts.
Processing of the packet stops afterwards (break). -/
def processInitChunk (sctpPacket : SctpPacket) (freshTag : Nat) (c : WuClient)
    (initiateTag _windowCredit numOutboundStreams numInboundStreams initialTsn : Nat) :
    SctpHandleResult :=
  let response : SctpPacket :=
    { sourcePort := sctpPacket.destionationPort,
      destionationPort := sctpPacket.sourcePort,
      verificationTag := initiateTag }
  let c1 : WuClient :=
    { c with sctpVerificationTag := initiateTag,
             remoteTsn := (initialTsn + (u32Mod - 1)) % u32Mod }
  let rc : SctpChunk :=
    { flags := 0, length := kSctpMinInitAckLength,
      body := .initAck freshTag kSctpDefaultBufferSpace numInboundStreams
                numOutboundStreams c1.tsn }
  { client := c1, out := WuSendSctp c1 response rc, events := [], stop := true }

/-- One iteration of the chunk loop of WuHandleSctp (Wu.cpp lines 225-373),
dispatching on the chunk type. Chunk types without an arm in the source
(SHUTDOWN among them) fall through with no effect. -/
def WuProcessChunk (sctpPacket : SctpPacket) (freshTag : Nat) (c : WuClient)
    (chunk : SctpChunk) : SctpHandleResult :=
  match chunk.body with
  | .data tsn streamId streamSeq protoId userData =>
      processDataChunk sctpPacket c tsn streamId streamSeq protoId userData
  | .init initiateTag windowCredit numOut numIn initialTsn =>
      processInitChunk sctpPacket freshTag c initiateTag windowCredit numOut numIn initialTsn
  | .cookieEcho =>
      let c1 :=
        if c.state.rank < WuClientState.sctpEstablished.rank then
          { c with state := WuClientState.sctpEstablished }
        else c
      let response : SctpPacket :=
        { sourcePort := sctpPacket.destionationPort,
          destionationPort := sctpPacket.sourcePort,
          verificationTag := c1.sctpVerificationTag }
      let rc : SctpChunk := { flags := 0, length := SctpChunkLength 0, body := .cookieAck }
      { client := c1, out := WuSendSctp c1 response rc, events := [], stop := false }
  | .heartbeat info =>
      let response : SctpPacket :=
        { sourcePort := sctpPacket.destionationPort,
          destionationPort := sctpPacket.sourcePort,
          verificationTag := c.sctpVerificationTag }
      let rc : SctpChunk := { flags := 0, length := chunk.length, body := .heartbeatAck info }
      let c1 : WuClient := { c with ttl := kMaxClientTtl }
      { client := c1, out := WuSendSctp c1 response rc, events := [], stop := false }
  | .heartbeatAck _ =>
      { client := { c with ttl := kMaxClientTtl }, out := [], events := [], stop := false }
  | .abortChunk =>
      { client := { c with state := WuClientState.waitingRemoval },
        out := [], events := [], stop := true }
  | .sack _cum _adv numGapAckBlocks _dup =>
      if numGapAckBlocks > 0 then
        let fwdResponse : SctpPacket :=
          { sourcePort := sctpPacket.destionationPort,
            destionationPort := sctpPacket.sourcePort,
            verificationTag := c.sctpVerificationTag }
        let fwdTsnChunk : SctpChunk :=
          { flags := 0, length := SctpChunkLength 4, body := .forwardTsn c.tsn }
        { client := c, out := WuSendSctp c fwdResponse fwdTsnChunk, events := [], stop := false }
      else
        { client := c, out := [], events := [], stop := false }
  | .initAck _ _ _ _ _ => { client := c, out := [], events := [], stop := false }
  | .shutdown _ => { client := c, out := [], events := [], stop := false }
  | .cookieAck => { client := c, out := [], events := [], stop := false }
  | .forwardTsn _ => { client := c, out := [], events := [], stop := false }

/-- The chunk loop of WuHandleSctp over an already parsed chunk list,
honoring the stop of INIT (break) and ABORT (return). -/
def WuHandleSctpChunks (sctpPacket : SctpPacket) (freshTag : Nat) :
    WuClient → List SctpChunk → WuClient × List (SctpPacket × SctpChunk) × List WuEvent
  | c, [] => (c, [], [])
  | c, chunk :: rest =>
      let r := WuProcessChunk sctpPacket freshTag c chunk
      if r.stop then (r.client, r.out, r.events)
      else
        let tail := WuHandleSctpChunks sctpPacket freshTag r.client rest
        (tail.1, r.out ++ tail.2.1, r.events ++ tail.2.2)

/-- WuHandleSctp on a parsed packet: the source parses at most 8 chunks
per packet (maxChunks), then runs the dispatch loop. -/
def WuHandleSctp (sctpPacket : SctpPacket) (freshTag : Nat) (c : WuClient)
    (chunks : List SctpChunk) : WuClient × List (SctpPacket × SctpChunk) × List WuEvent :=
  WuHandleSctpChunks sctpPacket freshTag c (chunks.take 8)

/-- WuSendData of Wu.cpp: refuse with -1 unless the data channel is open,
otherwise emit one complete-unreliable DATA chunk on stream 0 carrying the
current tsn and post-increment the tsn (uint32). -/
def WuSendData (port : Nat) (c : WuClient) (data : List Nat) (proto : Nat) :
    WuClient × List (SctpPacket × SctpChunk) × Int :=
  if c.state.rank < WuClientState.dataChannelOpen.rank then (c, [], -1)
  else
    let packet : SctpPacket :=
      { sourcePort := port, destionationPort := c.remoteSctpPort,
        verificationTag := c.sctpVerificationTag }
    let rc : SctpChunk :=
      { flags := kSctpFlagCompleteUnreliable,
        length := SctpDataChunkLength data.length,
        body := .data c.tsn 0 0 proto data }
    let c1 : WuClient := { c with tsn := (c.tsn + 1) % u32Mod }
    (c1, WuSendSctp c1 packet rc, 0)

/-- WuSendText of Wu.cpp. -/
def WuSendText (port : Nat) (c : WuClient) (text : List Nat) :
    WuClient × List (SctpPacket × SctpChunk) × Int :=
  WuSendData port c text DCProto_String

/-- WuSendBinary of Wu.cpp. -/
def WuSendBinary (port : Nat) (c : WuClient) (data : List Nat) :
    WuClient × List (SctpPacket × SctpChunk) × Int :=
  WuSendData port c data DCProto_Binary

/-- The dispatcher state (struct Wu). The arena is reduced to its bump
offset, the fixed pool to the invariant that at most maxClients slots are
in the clients list; host, certificate and callbacks are omitted. -/
structure Wu where
  time : Rat
  dt : Rat
  port : Nat
  pendingEvents : List WuEvent
  clients : List WuClient
  maxClients : Nat
  nextClientId : Nat
  arenaOffset : Nat
deriving DecidableEq, Repr

/-- Modelled from the spec: WuQueuePush (WuQueue.cpp, not under src/) on the
bounded event ring created with capacity 1024; a push onto a full queue
drops the new element. -/
def WuQueuePush (q : List WuEvent) (e : WuEvent) : List WuEvent :=
  if q.length < 1024 then q ++ [e] else q

/-- WuPurgeDeadClients of Wu.cpp: walk the clients and push one ClientLeave
event for every client whose ttl is exhausted or whose state is
WaitingRemoval. The client itself is not removed and its state is not
changed here. -/
def WuPurgeDeadClients (wu : Wu) : Wu :=
  { wu with
    pendingEvents :=
      wu.clients.foldl
        (fun q c =>
          if c.ttl ≤ 0 ∨ c.state = WuClientState.waitingRemoval then
            WuQueuePush q { type := WuEventType.clientLeave, clientId := c.id, data := [] }
          else q)
        wu.pendingEvents }

/-- WuSendHeartbeat of Wu.cpp. The heartbeat info carries the raw bytes of
the clock double in the source; the byte image of the IEEE double is
abstracted to the empty list here (no claim depends on it). -/
def WuSendHeartbeat (port : Nat) (c : WuClient) : List (SctpPacket × SctpChunk) :=
  let packet : SctpPacket :=
    { sourcePort := port, destionationPort := c.remoteSctpPort,
      verificationTag := c.sctpVerificationTag }
  let rc : SctpChunk :=
    { flags := kSctpFlagCompleteUnreliable, length := SctpChunkLength (4 + 8),
      body := .heartbeat [] }
  WuSendSctp c packet rc

/-- Per-client part of WuUpdateClients: subtract dt from ttl and from the
heartbeat countdown; when the countdown is exhausted, reset it and send a
heartbeat. -/
def WuTickClient (dt : Rat) (port : Nat) (c : WuClient) :
    WuClient × List (SctpPacket × SctpChunk) :=
  let c1 : WuClient := { c with ttl := c.ttl - dt, nextHeartbeat := c.nextHeartbeat - dt }
  if c1.nextHeartbeat ≤ 0 then
    let c2 : WuClient := { c1 with nextHeartbeat := heartbeatInterval }
    (c2, WuSendHeartbeat port c2)
  else (c1, [])

/-- The client walk of WuUpdateClients, in list order. -/
def WuUpdateClientsList (dt : Rat) (port : Nat) :
    List WuClient → List WuClient × List (SctpPacket × SctpChunk)
  | [] => ([], [])
  | c :: rest =>
      let head := WuTickClient dt port c
      let tail := WuUpdateClientsList dt port rest
      (head.1 :: tail.1, head.2 ++ tail.2)

/-- WuUpdateClients of Wu.cpp: advance the clock (the current time is an
input here, where the source reads MsNow), then tick every client. -/
def WuUpdateClients (wu : Wu) (now : Rat) : Wu × List (SctpPacket × SctpChunk) :=
  let dt := now - wu.time
  let walked := WuUpdateClientsList dt wu.port wu.clients
  ({ wu with time := now, dt := dt, clients := walked.1 }, walked.2)

/-- WuUpdate of Wu.cpp: pop one pending event and return 1, or, only when
the queue is empty, tick the clients, reset the arena, walk the dead
clients, and return 0. -/
def WuUpdate (wu : Wu) (now : Rat) :
    Wu × List (SctpPacket × SctpChunk) × Option WuEvent × Int :=
  match wu.pendingEvents with
  | e :: rest => ({ wu with pendingEvents := rest }, [], some e, 1)
  | [] =>
      let ticked := WuUpdateClients wu now
      let wu2 : Wu := { ticked.1 with arenaOffset := 0 }
      let wu3 := WuPurgeDeadClients wu2
      (wu3, ticked.2, none, 0)

/-- One line of an offer SDP, as far as the engine looks at it. -/
inductive SdpLine
  | iceUfrag (value : List Nat)
  | icePwd (value : List Nat)
  | other
deriving DecidableEq, Repr

/-- The two ICE fields ParseSdp extracts. -/
structure ICESdpFields where
  ufrag : List Nat
  password : List Nat
deriving DecidableEq, Repr

/-- Whether a line is an a=ice-ufrag attribute. -/
def SdpLine.isUfragLine : SdpLine → Bool
  | .iceUfrag _ => true
  | _ => false

/-- Whether a line is an a=ice-pwd attribute. -/
def SdpLine.isPwdLine : SdpLine → Bool
  | .icePwd _ => true
  | _ => false

/-- Modelled from the spec: ParseSdp (WuSdp.cpp, not under src/) scans the
lines for a=ice-ufrag and a=ice-pwd and fails when either is absent. -/
def ParseSdp (sdp : List SdpLine) : Option ICESdpFields :=
  let ufrag := sdp.findSome? fun l => match l with
    | .iceUfrag v => some v
    | _ => none
  let pwd := sdp.findSome? fun l => match l with
    | .icePwd v => some v
    | _ => none
  match ufrag, pwd with
  | some u, some p => some { ufrag := u, password := p }
  | _, _ => none

/-- Statuses of WuExchangeSDP. -/
inductive WuSDPStatus
  | success
  | invalidSDP
  | maxClients
deriving DecidableEq, Repr

/-- Modelled from the spec: the answer GenerateSDP (WuSdp.cpp, not under
src/) synthesizes, reduced to the fields the engine feeds it. -/
structure AnswerSdp where
  port : Nat
  serverUser : List Nat
  serverPassword : List Nat
deriving DecidableEq, Repr

/-- SDPResult of Wu.h: status, the new client (by id), and the answer. -/
structure SDPResult where
  status : WuSDPStatus
  clientId : Option Nat
  sdp : Option AnswerSdp
deriving DecidableEq, Repr

/-- The all-zero client slot, as memset leaves it in WuNewClient. -/
def emptyWuClient (id : Nat) : WuClient :=
  { id := id, serverUser := [], serverPassword := [], remoteUser := [],
    remoteUserPassword := [], address := { host := 0, port := 0 },
    state := WuClientState.dead, localSctpPort := 0, remoteSctpPort := 0,
    sctpVerificationTag := 0, remoteTsn := 0, tsn := 0, ttl := 0,
    nextHeartbeat := 0, sslInitFinished := false }

/-- WuClientStart of Wu.cpp: reset the protocol fields of a freshly
acquired slot and open a fresh DTLS session in accept state. -/
def WuClientStart (c : WuClient) : WuClient :=
  { c with state := WuClientState.dtlsHandshake, remoteSctpPort := 0,
           sctpVerificationTag := 0, remoteTsn := 0, tsn := 1,
           ttl := kMaxClientTtl, nextHeartbeat := heartbeatInterval,
           sslInitFinished := false }

/-- WuNewClient of Wu.cpp: acquire a slot from the fixed pool (which fails
exactly when all maxClients slots are in use), zero it, start it, and
append it to the clients list. -/
def WuNewClient (wu : Wu) : Option (Wu × WuClient) :=
  if wu.clients.length < wu.maxClients then
    let c := WuClientStart (emptyWuClient wu.nextClientId)
    some ({ wu with clients := wu.clients ++ [c], nextClientId := wu.nextClientId + 1 }, c)
  else none

/-- kMaxStunIdentifierLength of WuStun.h (not under src/): the capacity of
a stored credential; modelled from the spec as a bound comfortably above
the 4- and 24-byte credentials the engine generates. -/
def kMaxStunIdentifierLength : Nat := 64

/-- The source mutates the freshly appended client slot through its
pointer; here the last list element is replaced. -/
def WuSetLastClient (wu : Wu) (c : WuClient) : Wu :=
  { wu with clients := wu.clients.dropLast ++ [c] }

/-- WuExchangeSDP of Wu.cpp: parse the offer (failing with InvalidSDP
before any slot is touched), acquire a slot (failing with MaxClients),
fill in the generated server credentials (random in the source, inputs
here) and the remote credentials from the offer, and synthesize the
answer. -/
def WuExchangeSDP (wu : Wu) (sdp : List SdpLine)
    (serverUser serverPassword : List Nat) : Wu × SDPResult :=
  match ParseSdp sdp with
  | none => (wu, { status := WuSDPStatus.invalidSDP, clientId := none, sdp := none })
  | some iceFields =>
      match WuNewClient wu with
      | none => (wu, { status := WuSDPStatus.maxClients, clientId := none, sdp := none })
      | some (wu1, c) =>
          let c1 : WuClient :=
            { c with serverUser := serverUser.take 4,
                     serverPassword := serverPassword.take 24,
                     remoteUser := iceFields.ufrag.take kMaxStunIdentifierLength,
                     remoteUserPassword := iceFields.password.take kMaxStunIdentifierLength }
          let wu2 := WuSetLastClient wu1 c1
          let answer : AnswerSdp :=
            { port := wu2.port, serverUser := c1.serverUser,
              serverPassword := c1.serverPassword }
          (wu2, { status := WuSDPStatus.success, clientId := some c1.id, sdp := some answer })

/-- A parsed STUN binding request, as WuHandleStun consumes it. -/
structure StunPacket where
  serverUser : List Nat
  remoteUser : List Nat
  transactionId : List Nat
deriving DecidableEq, Repr

/-- kStunXorMagic of WuStun.h: the upper half of the magic cookie. -/
def kStunXorMagic : Nat := 8466

/-- kStunCookie of WuStun.h: the 32-bit magic cookie 0x2112A442. -/
def kStunCookie : Nat := 555810242

/-- ByteSwap on a uint16 value. -/
def ByteSwap16 (x : Nat) : Nat := (x % 256) * 256 + (x / 256) % 256

/-- ByteSwap on a uint32 value. -/
def ByteSwap32 (x : Nat) : Nat :=
  (x % 256) * 16777216 + ((x / 256) % 256) * 65536 +
    ((x / 65536) % 256) * 256 + (x / 16777216) % 256

/-- The binding-success reply WuHandleStun builds, reduced to the fields the
engine fills in before SerializeStunPacket. -/
structure StunResponse where
  transactionId : List Nat
  xorPort : Nat
  xorAddress : Nat
  integrityKey : List Nat
deriving DecidableEq, Repr

/-- The credential test of WuFindClientByCreds (StunUserIdentifierEqual on
both the server and the remote user). -/
def credsMatch (svUser clUser : List Nat) (c : WuClient) : Bool :=
  c.serverUser == svUser && c.remoteUser == clUser

/-- WuFindClientByCreds of Wu.cpp: first client whose credential pair
matches. -/
def WuFindClientByCreds (clients : List WuClient) (svUser clUser : List Nat) :
    Option WuClient :=
  clients.find? (credsMatch svUser clUser)

/-- Replace the first client matching the predicate (the source mutates the
found client through its pointer). -/
def updateFirstClient (p : WuClient → Bool) (f : WuClient → WuClient) :
    List WuClient → List WuClient
  | [] => []
  | c :: rest => if p c then f c :: rest else c :: updateFirstClient p f rest

/-- WuHandleStun of Wu.cpp: look the client up by the credential pair of
the USERNAME; on a match, reply with a binding success carrying the
XOR-mapped source address (keyed with the server password), then overwrite
localSctpPort with the source UDP port and the bound address with the
source address. Requests matching no client are dropped. -/
def WuHandleStun (wu : Wu) (packet : StunPacket) (remote : WuAddress) :
    Wu × List StunResponse :=
  match WuFindClientByCreds wu.clients packet.serverUser packet.remoteUser with
  | none => (wu, [])
  | some client =>
      let response : StunResponse :=
        { transactionId := packet.transactionId,
          xorPort := ByteSwap16 (remote.port ^^^ kStunXorMagic),
          xorAddress := ByteSwap32 (remote.host ^^^ kStunCookie),
          integrityKey := client.serverPassword }
      let wu1 : Wu :=
        { wu with clients :=
            (updateFirstClient (credsMatch packet.serverUser packet.remoteUser)
              (fun c => { c with localSctpPort := remote.port, address := remote })
              wu.clients) }
      (wu1, [response])

/-- Whether a chunk is a SACK. -/
def SctpChunk.isSack (chunk : SctpChunk) : Bool :=
  match chunk.body with
  | .sack _ _ _ _ => true
  | _ => false

/-! Concrete fixtures used by witnesses and counterexamples. -/

/-- A client with a finished DTLS handshake, still in the DTLSHandshake
engine state, as it stands when the first SCTP INIT arrives. -/
def hsClient : WuClient :=
  { id := 0, serverUser := [65, 66, 67, 68], serverPassword := [1, 2, 3],
    remoteUser := [97, 98, 99, 100], remoteUserPassword := [4, 5, 6],
    address := { host := 167772161, port := 40000 },
    state := WuClientState.dtlsHandshake, localSctpPort := 40000,
    remoteSctpPort := 5000, sctpVerificationTag := 0, remoteTsn := 0, tsn := 1,
    ttl := 8, nextHeartbeat := 4, sslInitFinished := true }

/-- A client whose SCTP association is established. -/
def estClient : WuClient :=
  { hsClient with state := WuClientState.sctpEstablished, sctpVerificationTag := 7,
                  remoteTsn := 999 }

/-- A client with an open data channel. -/
def openClient : WuClient :=
  { estClient with state := WuClientState.dataChannelOpen, tsn := 5 }

/-- An inbound SCTP header from the remote, source port 5000, destination
port 5001. -/
def inPkt : SctpPacket :=
  { sourcePort := 5000, destionationPort := 5001, verificationTag := 0 }

/-- Helper: the TLSSend gate passes once the state is at least
DTLSHandshake and the handshake has finished. -/
theorem wuSendSctp_pass {c : WuClient}
    (hstate : WuClientState.dtlsHandshake.rank ≤ c.state.rank)
    (hssl : c.sslInitFinished = true) (packet : SctpPacket) (chunk : SctpChunk) :
    WuSendSctp c packet chunk = [(packet, chunk)] := by
  simp only [WuSendSctp, TLSSend, hssl]
  rw [if_neg]
  rintro (h | h)
  · omega
  · simp at h

/-- C1, the claim as frozen, is false at a concrete input: processing an
INIT whose initiate tag is 7 with the fresh random draw 42 stores 7 (the
tag received from the peer), not the freshly chosen 42 carried inside the
INIT-ACK chunk. -/
theorem c1_counterexample :
    (WuProcessChunk inPkt 42 hsClient
        { flags := 0, length := 20, body := .init 7 65536 2 3 1000 }).client.sctpVerificationTag
      = 7 ∧
    (WuProcessChunk inPkt 42 hsClient
        { flags := 0, length := 20, body := .init 7 65536 2 3 1000 }).out =
      [({ sourcePort := 5001, destionationPort := 5000, verificationTag := 7 },
        { flags := 0, length := kSctpMinInitAckLength,
          body := .initAck 42 kSctpDefaultBufferSpace 3 2 1 })] ∧
    (7 : Nat) ≠ 42 := by
  decide

/-- C1 (amended): processing an INIT replies with one INIT-ACK whose chunk
carries the freshly drawn initiate tag, but the value saved as the
verification tag of the peer (and placed in the header of the INIT-ACK
packet, as of every later packet sent to this peer) is the initiate tag
received in the INIT; chunk processing then stops. -/
theorem c1_init_tag (pkt : SctpPacket) (freshTag : Nat) (c : WuClient)
    (itag wc nos nis itsn flags len : Nat)
    (hstate : WuClientState.dtlsHandshake.rank ≤ c.state.rank)
    (hssl : c.sslInitFinished = true) :
    (WuProcessChunk pkt freshTag c
        { flags := flags, length := len, body := .init itag wc nos nis itsn }).client.sctpVerificationTag
      = itag ∧
    (WuProcessChunk pkt freshTag c
        { flags := flags, length := len, body := .init itag wc nos nis itsn }).out =
      [({ sourcePort := pkt.destionationPort, destionationPort := pkt.sourcePort,
          verificationTag := itag },
        { flags := 0, length := kSctpMinInitAckLength,
          body := .initAck freshTag kSctpDefaultBufferSpace nis nos c.tsn })] ∧
    (WuProcessChunk pkt freshTag c
        { flags := flags, length := len, body := .init itag wc nos nis itsn }).stop = true := by
  have hpass := @wuSendSctp_pass
    { c with sctpVerificationTag := itag, remoteTsn := (itsn + (u32Mod - 1)) % u32Mod }
    hstate hssl
  refine ⟨rfl, ?_, rfl⟩
  simp only [WuProcessChunk, processInitChunk]
  rw [hpass]

/-- Witness for c1_init_tag at the fixture client. -/
theorem c1_init_tag_witness :
    (WuProcessChunk inPkt 42 hsClient
        { flags := 0, length := 20, body := .init 7 65536 2 3 1000 }).client.sctpVerificationTag
      = 7 ∧
    (WuProcessChunk inPkt 42 hsClient
        { flags := 0, length := 20, body := .init 7 65536 2 3 1000 }).out =
      [({ sourcePort := inPkt.destionationPort, destionationPort := inPkt.sourcePort,
          verificationTag := 7 },
        { flags := 0, length := kSctpMinInitAckLength,
          body := .initAck 42 kSctpDefaultBufferSpace 3 2 hsClient.tsn })] ∧
    (WuProcessChunk inPkt 42 hsClient
        { flags := 0, length := 20, body := .init 7 65536 2 3 1000 }).stop = true :=
  c1_init_tag inPkt 42 hsClient 7 65536 2 3 1000 0 20 (by decide) (by decide)

/-- C3, the claim as frozen, is false at a concrete input: a SHUTDOWN chunk
arriving at an established client leaves the state at SCTPEstablished (the
chunk dispatch of WuHandleSctp has no SHUTDOWN arm), and nothing is sent. -/
theorem c3_counterexample :
    (WuProcessChunk inPkt 0 estClient
        { flags := 0, length := 8, body := .shutdown 5 }).client.state
      = WuClientState.sctpEstablished ∧
    WuClientState.sctpEstablished ≠ WuClientState.waitingRemoval ∧
    (WuProcessChunk inPkt 0 estClient
        { flags := 0, length := 8, body := .shutdown 5 }).out = [] ∧
    (WuProcessChunk inPkt 0 estClient
        { flags := 0, length := 8, body := .shutdown 5 }).events = [] := by
  decide

/-- C3 (amended): SHUTDOWN chunks are ignored by the engine: processing one
changes nothing about the peer, sends nothing (in particular no
SHUTDOWN-ACK), pushes no event, and does not stop the chunk loop. -/
theorem c3_shutdown_ignored (pkt : SctpPacket) (freshTag flags len cum : Nat)
    (c : WuClient) :
    WuProcessChunk pkt freshTag c { flags := flags, length := len, body := .shutdown cum } =
      { client := c, out := [], events := [], stop := false } :=
  rfl

/-- C4: processing a DATA chunk bumps remoteTsn to the maximum of the old
value and the chunk tsn, resets the ttl to 8 seconds, and replies with
exactly one SACK whose cumulative TSN ack is the updated remoteTsn with
zero gap-ack blocks and zero duplicate TSNs - for every PPID. -/
theorem c4_data_sack (pkt : SctpPacket) (freshTag : Nat) (c : WuClient)
    (tsn sid sseq ppid flags len : Nat) (ud : List Nat)
    (hstate : WuClientState.dtlsHandshake.rank ≤ c.state.rank)
    (hssl : c.sslInitFinished = true) :
    (WuProcessChunk pkt freshTag c
        { flags := flags, length := len, body := .data tsn sid sseq ppid ud }).client.remoteTsn
      = Nat.max c.remoteTsn tsn ∧
    (WuProcessChunk pkt freshTag c
        { flags := flags, length := len, body := .data tsn sid sseq ppid ud }).client.ttl = 8 ∧
    ((WuProcessChunk pkt freshTag c
        { flags := flags, length := len,
          body := .data tsn sid sseq ppid ud }).out.filter (fun o => o.2.isSack)) =
      [({ sourcePort := pkt.destionationPort, destionationPort := pkt.sourcePort,
          verificationTag := c.sctpVerificationTag },
        { flags := 0, length := SctpChunkLength 12,
          body := .sack (Nat.max c.remoteTsn tsn) kSctpDefaultBufferSpace 0 0 })] := by
  have hnl : ¬ (c.state.rank < WuClientState.dtlsHandshake.rank) := Nat.not_lt.mpr hstate
  by_cases hp : ppid = DCProto_Control
  · by_cases hm : ParseDataChannelControlPacket ud = DCMessage_Open
    · by_cases ho : c.state = WuClientState.dataChannelOpen
      · simp [WuProcessChunk, processDataChunk, hp, hm, ho, WuSendSctp, TLSSend, hssl,
          SctpChunk.isSack, Nat.max_comm, kMaxClientTtl, WuClientState.rank]
      · simp [WuProcessChunk, processDataChunk, hp, hm, ho, WuSendSctp, TLSSend, hssl,
          SctpChunk.isSack, Nat.max_comm, kMaxClientTtl, WuClientState.rank]
    · simp [WuProcessChunk, processDataChunk, hp, hm, WuSendSctp, TLSSend, hssl,
        SctpChunk.isSack, Nat.max_comm, kMaxClientTtl, hnl]
  · by_cases hs : ppid = DCProto_String
    · simp [WuProcessChunk, processDataChunk, hp, hs, WuSendSctp, TLSSend, hssl,
        SctpChunk.isSack, Nat.max_comm, kMaxClientTtl, hnl, DCProto_String, DCProto_Control,
        DCProto_Binary]
    · by_cases hb : ppid = DCProto_Binary
      · simp [WuProcessChunk, processDataChunk, hp, hs, hb, WuSendSctp, TLSSend, hssl,
          SctpChunk.isSack, Nat.max_comm, kMaxClientTtl, hnl, DCProto_String, DCProto_Control,
          DCProto_Binary]
      · simp [WuProcessChunk, processDataChunk, hp, hs, hb, WuSendSctp, TLSSend, hssl,
          SctpChunk.isSack, Nat.max_comm, kMaxClientTtl, hnl]

/-- Witness for c4_data_sack: a DCEP OPEN arriving as a DATA chunk at the
established fixture client. -/
theorem c4_data_sack_witness :
    (WuProcessChunk inPkt 0 estClient
        { flags := 3, length := 29, body := .data 1000 1 0 53 [3] }).client.remoteTsn
      = Nat.max estClient.remoteTsn 1000 ∧
    (WuProcessChunk inPkt 0 estClient
        { flags := 3, length := 29, body := .data 1000 1 0 53 [3] }).client.ttl = 8 ∧
    ((WuProcessChunk inPkt 0 estClient
        { flags := 3, length := 29,
          body := .data 1000 1 0 53 [3] }).out.filter (fun o => o.2.isSack)) =
      [({ sourcePort := inPkt.destionationPort, destionationPort := inPkt.sourcePort,
          verificationTag := estClient.sctpVerificationTag },
        { flags := 0, length := SctpChunkLength 12,
          body := .sack (Nat.max estClient.remoteTsn 1000) kSctpDefaultBufferSpace 0 0 })] :=
  c4_data_sack inPkt 0 estClient 1000 1 0 53 3 29 [3] (by decide) (by decide)

/-- C5: an inbound SACK emits exactly one FORWARD-TSN carrying the current
local tsn when it reports at least one gap-ack block, and nothing at all
when it reports none; the client is unchanged either way. -/
theorem c5_sack_forward_tsn (pkt : SctpPacket)
    (freshTag cum adv ngap ndup flags len : Nat) (c : WuClient)
    (hstate : WuClientState.dtlsHandshake.rank ≤ c.state.rank)
    (hssl : c.sslInitFinished = true) :
    WuProcessChunk pkt freshTag c
        { flags := flags, length := len, body := .sack cum adv ngap ndup } =
      { client := c,
        out :=
          if 0 < ngap then
            [({ sourcePort := pkt.destionationPort, destionationPort := pkt.sourcePort,
                verificationTag := c.sctpVerificationTag },
              { flags := 0, length := SctpChunkLength 4, body := .forwardTsn c.tsn })]
          else [],
        events := [], stop := false } := by
  simp only [WuProcessChunk]
  by_cases h : 0 < ngap
  · rw [if_pos h, if_pos h, wuSendSctp_pass hstate hssl]
  · rw [if_neg h, if_neg h]

/-- Witness for c5_sack_forward_tsn: a SACK with one gap-ack block at the
established fixture client. -/
theorem c5_sack_forward_tsn_witness :
    WuProcessChunk inPkt 0 estClient
        { flags := 0, length := 32, body := .sack 0 65536 1 0 } =
      { client := estClient,
        out :=
          if 0 < 1 then
            [({ sourcePort := inPkt.destionationPort, destionationPort := inPkt.sourcePort,
                verificationTag := estClient.sctpVerificationTag },
              { flags := 0, length := SctpChunkLength 4, body := .forwardTsn estClient.tsn })]
          else [],
        events := [], stop := false } :=
  c5_sack_forward_tsn inPkt 0 0 65536 1 0 0 32 estClient (by decide) (by decide)

/-- C6: SendText and SendBinary refuse with -1 and change nothing when the
data channel is not open, and return 0 when it is. -/
theorem c6_send_requires_open (port : Nat) (c copen : WuClient) (text bin : List Nat)
    (hc : c.state ≠ WuClientState.dataChannelOpen)
    (hopen : copen.state = WuClientState.dataChannelOpen) :
    WuSendText port c text = (c, [], -1) ∧
    WuSendBinary port c bin = (c, [], -1) ∧
    (WuSendText port copen text).2.2 = 0 ∧
    (WuSendBinary port copen bin).2.2 = 0 := by
  have hlt : c.state.rank < WuClientState.dataChannelOpen.rank := by
    cases h : c.state
    · decide
    · decide
    · decide
    · decide
    · exact absurd h hc
  refine ⟨?_, ?_, ?_, ?_⟩
  · simp only [WuSendText, WuSendData]
    rw [if_pos hlt]
  · simp only [WuSendBinary, WuSendData]
    rw [if_pos hlt]
  · simp only [WuSendText, WuSendData, hopen]
    rw [if_neg (lt_irrefl _)]
  · simp only [WuSendBinary, WuSendData, hopen]
    rw [if_neg (lt_irrefl _)]

/-- Witness for c6_send_requires_open: an established (not yet open) client
is refused, the open fixture client is accepted. -/
theorem c6_send_requires_open_witness :
    WuSendText 5001 estClient [104, 105] = (estClient, [], -1) ∧
    WuSendBinary 5001 estClient [0, 1] = (estClient, [], -1) ∧
    (WuSendText 5001 openClient [104, 105]).2.2 = 0 ∧
    (WuSendBinary 5001 openClient [0, 1]).2.2 = 0 :=
  c6_send_requires_open 5001 estClient openClient [104, 105] [0, 1]
    (by decide) (by decide)

/-- Helper: while it stays within the 1024-slot capacity, the dead-client
walk appends exactly one ClientLeave event per dead or waiting-removal
client, in list order. -/
theorem purge_foldl (cs : List WuClient) (q : List WuEvent)
    (h : q.length + cs.length ≤ 1024) :
    cs.foldl
        (fun q c =>
          if c.ttl ≤ 0 ∨ c.state = WuClientState.waitingRemoval then
            WuQueuePush q { type := WuEventType.clientLeave, clientId := c.id, data := [] }
          else q) q
      = q ++ (cs.filter
            (fun c => decide (c.ttl ≤ 0 ∨ c.state = WuClientState.waitingRemoval))).map
          (fun c => { type := WuEventType.clientLeave, clientId := c.id, data := [] }) := by
  induction cs generalizing q with
  | nil => simp
  | cons c rest ih =>
    simp only [List.foldl_cons, List.filter_cons]
    by_cases hd : c.ttl ≤ 0 ∨ c.state = WuClientState.waitingRemoval
    · have hlt : q.length < 1024 := by
        simp only [List.length_cons] at h
        omega
      rw [if_pos hd, WuQueuePush, if_pos hlt, ih]
      · simp [hd]
      · simp only [List.length_cons] at h
        simp only [List.length_append, List.length_singleton]
        omega
    · rw [if_neg hd, ih]
      · simp [hd]
      · simp only [List.length_cons] at h
        omega

/-- Helper: the tick walk preserves the number of clients. -/
theorem wuUpdateClientsList_length (dt : Rat) (port : Nat) :
    ∀ cs : List WuClient, (WuUpdateClientsList dt port cs).1.length = cs.length := by
  intro cs
  induction cs with
  | nil => rfl
  | cons c rest ih => simp [WuUpdateClientsList, ih]

/-- A dispatcher with one client already marked WaitingRemoval and an empty
event queue. -/
def c2Wu : Wu :=
  { time := 0, dt := 0, port := 5001, pendingEvents := [],
    clients := [{ estClient with id := 1, state := WuClientState.waitingRemoval }],
    maxClients := 4, nextClientId := 2, arenaOffset := 0 }

/-- A dispatcher with one open client whose ttl is about to expire. -/
def c2WuTtl : Wu :=
  { time := 0, dt := 0, port := 5001, pendingEvents := [],
    clients := [{ openClient with id := 2 }],
    maxClients := 4, nextClientId := 3, arenaOffset := 0 }

/-- C2, the claim as frozen, is false on two counts at concrete inputs: a
peer in WaitingRemoval yields a ClientLeave from the queue on the second
and again on the fourth Update call (one per idle tick, not exactly one);
and a ttl expiry does not transition the peer to WaitingRemoval (the state
stays DataChannelOpen while a ClientLeave is enqueued). -/
theorem c2_counterexample :
    (WuUpdate c2Wu 0).2.2.2 = 0 ∧
    (WuUpdate (WuUpdate c2Wu 0).1 0).2.2.1 =
      some { type := WuEventType.clientLeave, clientId := 1, data := [] } ∧
    (WuUpdate (WuUpdate (WuUpdate (WuUpdate c2Wu 0).1 0).1 0).1 0).2.2.1 =
      some { type := WuEventType.clientLeave, clientId := 1, data := [] } ∧
    (WuUpdate c2WuTtl 9).1.clients.map WuClient.state = [WuClientState.dataChannelOpen] ∧
    (WuUpdate c2WuTtl 9).1.pendingEvents =
      [{ type := WuEventType.clientLeave, clientId := 2, data := [] }] := by
  norm_num [WuUpdate, WuUpdateClients, WuUpdateClientsList, WuTickClient, WuSendHeartbeat,
    WuSendSctp, TLSSend, WuPurgeDeadClients, WuQueuePush, c2Wu, c2WuTtl, estClient,
    openClient, hsClient, kMaxClientTtl, heartbeatInterval, WuClientState.rank]

/-- C2 (amended): an SCTP ABORT transitions the peer to WaitingRemoval (a
ttl expiry does not change the state); every Update call that finds the
event queue empty then enqueues one ClientLeave event per peer whose ttl is
exhausted or whose state is WaitingRemoval - so at least one ClientLeave is
surfaced, but it is re-surfaced on every further idle Update until the
embedder removes the peer. -/
theorem c2_abort_and_leave (pkt : SctpPacket) (freshTag flags len : Nat) (c : WuClient)
    (wu : Wu) (now : Rat)
    (hEmpty : wu.pendingEvents = []) (hLen : wu.clients.length ≤ 1024) :
    (WuProcessChunk pkt freshTag c
        { flags := flags, length := len, body := .abortChunk }).client.state
      = WuClientState.waitingRemoval ∧
    (WuUpdate wu now).1.pendingEvents =
      ((WuUpdateClientsList (now - wu.time) wu.port wu.clients).1.filter
          (fun d => decide (d.ttl ≤ 0 ∨ d.state = WuClientState.waitingRemoval))).map
        (fun d => { type := WuEventType.clientLeave, clientId := d.id, data := [] }) := by
  refine ⟨rfl, ?_⟩
  simp only [WuUpdate, hEmpty, WuUpdateClients, WuPurgeDeadClients]
  rw [purge_foldl]
  · simp
  · simp only [List.length_nil, wuUpdateClientsList_length]
    omega

/-- Witness for c2_abort_and_leave at the WaitingRemoval fixture. -/
theorem c2_abort_and_leave_witness :
    (WuProcessChunk inPkt 0 estClient
        { flags := 0, length := 4, body := .abortChunk }).client.state
      = WuClientState.waitingRemoval ∧
    (WuUpdate c2Wu 0).1.pendingEvents =
      ((WuUpdateClientsList ((0 : Rat) - c2Wu.time) c2Wu.port c2Wu.clients).1.filter
          (fun d => decide (d.ttl ≤ 0 ∨ d.state = WuClientState.waitingRemoval))).map
        (fun d => { type := WuEventType.clientLeave, clientId := d.id, data := [] }) :=
  c2_abort_and_leave inPkt 0 0 4 estClient c2Wu 0 rfl (by decide)

/-- Helper: findSome? yields nothing when the function yields nothing on
every element. -/
theorem findSome?_eq_none_of {α β : Type} (f : α → Option β) :
    ∀ l : List α, (∀ x ∈ l, f x = none) → l.findSome? f = none := by
  intro l h
  induction l with
  | nil => rfl
  | cons x xs ih =>
    have hx := h x (by simp)
    simp only [List.findSome?, hx]
    exact ih fun y hy => h y (by simp [hy])

/-- Helper: ParseSdp fails when the offer has no a=ice-ufrag line or no
a=ice-pwd line. -/
theorem parseSdp_none_of_missing (sdp : List SdpLine)
    (h : (∀ l ∈ sdp, l.isUfragLine = false) ∨ (∀ l ∈ sdp, l.isPwdLine = false)) :
    ParseSdp sdp = none := by
  rcases h with h | h
  · have hu : sdp.findSome?
        (fun l => match l with | .iceUfrag v => some v | _ => none) = none := by
      apply findSome?_eq_none_of
      intro x hx
      have := h x hx
      cases x <;> simp_all [SdpLine.isUfragLine]
    cases hp : sdp.findSome? (fun l => match l with | .icePwd v => some v | _ => none) <;>
      simp [ParseSdp, hu, hp]
  · have hw : sdp.findSome?
        (fun l => match l with | .icePwd v => some v | _ => none) = none := by
      apply findSome?_eq_none_of
      intro x hx
      have := h x hx
      cases x <;> simp_all [SdpLine.isPwdLine]
    cases hu : sdp.findSome? (fun l => match l with | .iceUfrag v => some v | _ => none) <;>
      simp [ParseSdp, hu, hw]

/-- C7: an offer lacking the a=ice-ufrag attribute or the a=ice-pwd
attribute makes ExchangeSDP return InvalidSDP with no peer handle and no
answer, leaving the dispatcher (peer table and pool) unchanged; in
particular such an offer can never yield MaxClients, the parse failing
before any slot is acquired. -/
theorem c7_invalid_sdp (wu : Wu) (sdp : List SdpLine) (su sp : List Nat)
    (h : (∀ l ∈ sdp, l.isUfragLine = false) ∨ (∀ l ∈ sdp, l.isPwdLine = false)) :
    WuExchangeSDP wu sdp su sp
      = (wu, { status := WuSDPStatus.invalidSDP, clientId := none, sdp := none }) ∧
    (WuExchangeSDP wu sdp su sp).2.status ≠ WuSDPStatus.maxClients := by
  have hn := parseSdp_none_of_missing sdp h
  constructor
  · simp [WuExchangeSDP, hn]
  · simp [WuExchangeSDP, hn]

/-- Witness for c7_invalid_sdp: an offer with a password line but no ufrag
line leaves the dispatcher untouched. -/
theorem c7_invalid_sdp_witness :
    WuExchangeSDP c2Wu [SdpLine.other, SdpLine.icePwd [7, 8]] [1, 2, 3, 4] [5]
      = (c2Wu, { status := WuSDPStatus.invalidSDP, clientId := none, sdp := none }) ∧
    (WuExchangeSDP c2Wu [SdpLine.other, SdpLine.icePwd [7, 8]] [1, 2, 3, 4] [5]).2.status
      ≠ WuSDPStatus.maxClients :=
  c7_invalid_sdp c2Wu [SdpLine.other, SdpLine.icePwd [7, 8]] [1, 2, 3, 4] [5]
    (Or.inl (by decide))

/-- C8: an Update call with a pending event pops exactly that event and
returns 1, leaving time, clients and arena untouched; only with an empty
queue does it tick (advance time, walk the clients, reset the arena to
offset 0, walk the dead clients) and return 0 with no event. -/
theorem c8_update_branches (wu1 wu2 : Wu) (now1 now2 : Rat) (e : WuEvent)
    (rest : List WuEvent) (h1 : wu1.pendingEvents = e :: rest)
    (h2 : wu2.pendingEvents = []) :
    WuUpdate wu1 now1 = ({ wu1 with pendingEvents := rest }, [], some e, 1) ∧
    (WuUpdate wu2 now2).2.2.2 = 0 ∧
    (WuUpdate wu2 now2).2.2.1 = none ∧
    (WuUpdate wu2 now2).1.arenaOffset = 0 ∧
    (WuUpdate wu2 now2).1.time = now2 ∧
    (WuUpdate wu2 now2).1.clients
      = (WuUpdateClientsList (now2 - wu2.time) wu2.port wu2.clients).1 ∧
    (WuUpdate wu2 now2).2.1
      = (WuUpdateClientsList (now2 - wu2.time) wu2.port wu2.clients).2 := by
  refine ⟨?_, ?_, ?_, ?_, ?_, ?_, ?_⟩ <;>
    simp [WuUpdate, h1, h2, WuUpdateClients, WuPurgeDeadClients]

/-- A pending TextData event used by the Update-branch witness. -/
def c8Event : WuEvent := { type := WuEventType.textData, clientId := 1, data := [104] }

/-- A dispatcher whose event queue holds exactly c8Event. -/
def c8Wu : Wu := { c2Wu with pendingEvents := [c8Event] }

/-- Witness for c8_update_branches: a queue holding one TextData event
versus the empty-queue fixture. -/
theorem c8_update_branches_witness :
    WuUpdate c8Wu 3 = ({ c8Wu with pendingEvents := [] }, [], some c8Event, 1) ∧
    (WuUpdate c2WuTtl 2).2.2.2 = 0 ∧
    (WuUpdate c2WuTtl 2).2.2.1 = none ∧
    (WuUpdate c2WuTtl 2).1.arenaOffset = 0 ∧
    (WuUpdate c2WuTtl 2).1.time = 2 ∧
    (WuUpdate c2WuTtl 2).1.clients
      = (WuUpdateClientsList ((2 : Rat) - c2WuTtl.time) c2WuTtl.port c2WuTtl.clients).1 ∧
    (WuUpdate c2WuTtl 2).2.1
      = (WuUpdateClientsList ((2 : Rat) - c2WuTtl.time) c2WuTtl.port c2WuTtl.clients).2 :=
  c8_update_branches c8Wu c2WuTtl 3 2 c8Event [] rfl rfl

/-- One application-data send, keeping only the client evolution
(WuSendData through SendText or SendBinary). -/
def sendStep (port : Nat) (data : List Nat) (proto : Nat) (c : WuClient) : WuClient :=
  (WuSendData port c data proto).1

/-- n successive application-data sends. -/
def sendNTimes (port : Nat) (data : List Nat) (proto : Nat) : Nat → WuClient → WuClient
  | 0, c => c
  | n + 1, c => sendNTimes port data proto n (sendStep port data proto c)

/-- Helper: on an open channel one send only bumps the tsn, modulo 2^32. -/
theorem sendStep_open (port : Nat) (data : List Nat) (proto : Nat) (c : WuClient)
    (h : c.state = WuClientState.dataChannelOpen) :
    sendStep port data proto c = { c with tsn := (c.tsn + 1) % u32Mod } := by
  simp only [sendStep, WuSendData, h]
  rw [if_neg (lt_irrefl _)]

/-- Helper: after n sends on an open channel the client is unchanged except
that the tsn has advanced by n, modulo 2^32. -/
theorem sendNTimes_tsn (port : Nat) (data : List Nat) (proto : Nat) :
    ∀ (n : Nat) (c : WuClient), c.state = WuClientState.dataChannelOpen →
      c.tsn < u32Mod →
      sendNTimes port data proto n c = { c with tsn := (c.tsn + n) % u32Mod } := by
  intro n
  induction n with
  | zero =>
    intro c hs hlt
    rw [sendNTimes, Nat.add_zero, Nat.mod_eq_of_lt hlt]
  | succ n ih =>
    intro c hs hlt
    rw [sendNTimes, sendStep_open port data proto c hs]
    have hm : ((c.tsn + 1) % u32Mod) < u32Mod :=
      Nat.mod_lt _ (by simp [u32Mod])
    rw [ih { c with tsn := (c.tsn + 1) % u32Mod } hs hm]
    simp only [Nat.mod_add_mod]
    ring_nf

/-- A freshly started client whose data channel has just been opened: the
earliest state from which the engine emits DATA chunks, tsn 1. -/
def c9Client : WuClient :=
  { (WuClientStart (emptyWuClient 3)) with
      state := WuClientState.dataChannelOpen, sslInitFinished := true }

/-- The open client after 4294967294 sends: its tsn holds 2^32 - 1. -/
def c9MaxClient : WuClient := { c9Client with tsn := 4294967295 }

/-- C9, the claim as frozen, is false on the uint32 wraparound: starting
from the freshly opened client (tsn 1), 4294967294 successful sends reach
exactly the state c9MaxClient with tsn 4294967295 = 2^32 - 1, and the next
send from there wraps the stored tsn to 0, a decrease. -/
theorem c9_counterexample :
    sendNTimes 5001 [104] DCProto_Binary 4294967294 c9Client = c9MaxClient ∧
    c9MaxClient.tsn = 4294967295 ∧
    (sendStep 5001 [104] DCProto_Binary c9MaxClient).tsn = 0 ∧
    (sendStep 5001 [104] DCProto_Binary c9MaxClient).tsn < c9MaxClient.tsn := by
  have hreach := sendNTimes_tsn 5001 [104] DCProto_Binary 4294967294 c9Client rfl
    (by norm_num [c9Client, WuClientStart, emptyWuClient, u32Mod])
  have hstep := sendStep_open 5001 [104] DCProto_Binary c9MaxClient rfl
  refine ⟨?_, rfl, ?_, ?_⟩
  · rw [hreach]
    norm_num [c9Client, c9MaxClient, WuClientStart, emptyWuClient, u32Mod]
  · rw [hstep]
    norm_num [c9MaxClient, c9Client, WuClientStart, emptyWuClient, u32Mod]
  · rw [hstep]
    norm_num [c9MaxClient, c9Client, WuClientStart, emptyWuClient, u32Mod]

/-- C9 (amended): every operation that emits a DATA chunk (the DCEP ACK
reply, SendText, SendBinary) carries the current local tsn in the emitted
chunk and advances the stored tsn to (tsn + 1) mod 2^32, and no chunk
processing changes the tsn otherwise; hence the tsn strictly increases
until it reaches 2^32 - 1, where the next send wraps it to 0. -/
theorem c9_tsn_monotone (pkt : SctpPacket) (freshTag port proto : Nat)
    (data : List Nat) (c : WuClient) (chunk : SctpChunk)
    (hopen : c.state = WuClientState.dataChannelOpen)
    (hssl : c.sslInitFinished = true)
    (hlt : c.tsn + 1 < u32Mod) :
    (WuSendData port c data proto).1 = { c with tsn := (c.tsn + 1) % u32Mod } ∧
    (WuSendData port c data proto).2.1 =
      [({ sourcePort := port, destionationPort := c.remoteSctpPort,
          verificationTag := c.sctpVerificationTag },
        { flags := kSctpFlagCompleteUnreliable, length := SctpDataChunkLength data.length,
          body := .data c.tsn 0 0 proto data })] ∧
    c.tsn < (WuSendData port c data proto).1.tsn ∧
    ((WuProcessChunk pkt freshTag c chunk).client.tsn = c.tsn ∨
      (WuProcessChunk pkt freshTag c chunk).client.tsn = (c.tsn + 1) % u32Mod) := by
  have hstep : (WuSendData port c data proto).1 = { c with tsn := (c.tsn + 1) % u32Mod } :=
    sendStep_open port data proto c hopen
  refine ⟨hstep, ?_, ?_, ?_⟩
  · simp only [WuSendData, hopen]
    rw [if_neg (lt_irrefl _), wuSendSctp_pass]
    · show WuClientState.dtlsHandshake.rank ≤ WuClientState.dataChannelOpen.rank
      decide
    · exact hssl
  · rw [hstep]
    simp only
    rw [Nat.mod_eq_of_lt hlt]
    omega
  · rcases chunk with ⟨flags, len, body⟩
    cases body with
    | data tsn sid sseq ppid ud =>
      by_cases hp : ppid = DCProto_Control
      · by_cases hm : ParseDataChannelControlPacket ud = DCMessage_Open
        · right
          simp [WuProcessChunk, processDataChunk, hp, hm, hopen]
        · left
          simp [WuProcessChunk, processDataChunk, hp, hm]
      · left
        by_cases hs : ppid = DCProto_String
        · simp [WuProcessChunk, processDataChunk, hp, hs, DCProto_String, DCProto_Control,
            DCProto_Binary]
        · by_cases hb : ppid = DCProto_Binary
          · simp [WuProcessChunk, processDataChunk, hp, hs, hb, DCProto_String,
              DCProto_Control, DCProto_Binary]
          · simp [WuProcessChunk, processDataChunk, hp, hs, hb]
    | init a b d e f => left; rfl
    | initAck a b d e f => left; rfl
    | sack cum adv ngap ndup =>
      left
      by_cases hg : 0 < ngap
      · simp [WuProcessChunk, hg]
      · simp [WuProcessChunk, hg]
    | heartbeat info => left; rfl
    | heartbeatAck info => left; rfl
    | abortChunk => left; rfl
    | shutdown cum => left; rfl
    | cookieEcho =>
      left
      by_cases hl : c.state.rank < WuClientState.sctpEstablished.rank
      · simp [WuProcessChunk, hl]
      · simp [WuProcessChunk, hl]
    | cookieAck => left; rfl
    | forwardTsn t => left; rfl

/-- Witness for c9_tsn_monotone: a binary send and a COOKIE-ECHO at the
open fixture client (tsn 5). -/
theorem c9_tsn_monotone_witness :
    (WuSendData 5001 openClient [9] DCProto_Binary).1
      = { openClient with tsn := (openClient.tsn + 1) % u32Mod } ∧
    (WuSendData 5001 openClient [9] DCProto_Binary).2.1 =
      [({ sourcePort := 5001, destionationPort := openClient.remoteSctpPort,
          verificationTag := openClient.sctpVerificationTag },
        { flags := kSctpFlagCompleteUnreliable, length := SctpDataChunkLength [9].length,
          body := .data openClient.tsn 0 0 DCProto_Binary [9] })] ∧
    openClient.tsn < (WuSendData 5001 openClient [9] DCProto_Binary).1.tsn ∧
    ((WuProcessChunk inPkt 0 openClient
        { flags := 0, length := 4, body := .cookieEcho }).client.tsn = openClient.tsn ∨
      (WuProcessChunk inPkt 0 openClient
        { flags := 0, length := 4, body := .cookieEcho }).client.tsn
        = (openClient.tsn + 1) % u32Mod) :=
  c9_tsn_monotone inPkt 0 5001 DCProto_Binary [9] openClient
    { flags := 0, length := 4, body := .cookieEcho } (by decide) (by decide) (by decide)

/-- Helper: replacing the first match of a find? keeps it the first match,
provided the replacement still satisfies the predicate; the replacement is
a member of the updated list. -/
theorem updateFirstClient_find? (p : WuClient → Bool) (f : WuClient → WuClient) :
    ∀ (l : List WuClient) (c : WuClient), l.find? p = some c → p (f c) = true →
      (updateFirstClient p f l).find? p = some (f c) ∧ f c ∈ updateFirstClient p f l := by
  intro l
  induction l with
  | nil => intro c hfind; simp at hfind
  | cons x rest ih =>
    intro c hfind hp
    by_cases hx : p x
    · have hc : c = x := by
        rw [List.find?_cons_of_pos _ hx] at hfind
        exact (Option.some.injEq _ _).mp hfind.symm
      subst hc
      simp only [updateFirstClient, if_pos hx]
      exact ⟨List.find?_cons_of_pos _ hp, by simp⟩
    · rw [List.find?_cons_of_neg _ hx] at hfind
      have hxb : p x = false := by simp [hx]
      obtain ⟨h1, h2⟩ := ih c hfind hp
      simp only [updateFirstClient, hxb, Bool.false_eq_true, if_neg, ite_false]
      exact ⟨by rw [List.find?_cons_of_neg _ hx, h1], by simp [h2]⟩

/-- C10: whenever a STUN binding request carries credentials matching some
client, handling it rewrites that client, setting its bound address to the
source address of the datagram and its local SCTP port to the source UDP
port - unconditionally, so a later request from a different source address
rebinds the peer - and emits one binding success keyed with the server
password of that client. -/
theorem c10_stun_rebind (wu : Wu) (packet : StunPacket) (remote : WuAddress)
    (c : WuClient)
    (h : WuFindClientByCreds wu.clients packet.serverUser packet.remoteUser = some c) :
    WuFindClientByCreds (WuHandleStun wu packet remote).1.clients
        packet.serverUser packet.remoteUser
      = some { c with localSctpPort := remote.port, address := remote } ∧
    { c with localSctpPort := remote.port, address := remote }
      ∈ (WuHandleStun wu packet remote).1.clients ∧
    (WuHandleStun wu packet remote).2 =
      [{ transactionId := packet.transactionId,
         xorPort := ByteSwap16 (remote.port ^^^ kStunXorMagic),
         xorAddress := ByteSwap32 (remote.host ^^^ kStunCookie),
         integrityKey := c.serverPassword }] := by
  have hpc : credsMatch packet.serverUser packet.remoteUser c = true :=
    List.find?_some h
  have hpf : credsMatch packet.serverUser packet.remoteUser
      { c with localSctpPort := remote.port, address := remote } = true := by
    simpa [credsMatch] using hpc
  obtain ⟨h1, h2⟩ := updateFirstClient_find?
    (credsMatch packet.serverUser packet.remoteUser)
    (fun d => { d with localSctpPort := remote.port, address := remote })
    wu.clients c h hpf
  refine ⟨?_, ?_, ?_⟩
  · simp only [WuHandleStun, h]
    simp only [WuFindClientByCreds]
    exact h1
  · simp only [WuHandleStun, h]
    exact h2
  · simp [WuHandleStun, h]

/-- The dispatcher, binding request and new source address of the
rebinding witness. -/
def c10Wu : Wu := { c2Wu with clients := [hsClient] }

/-- A binding request whose USERNAME matches the handshake fixture client. -/
def c10Stun : StunPacket :=
  { serverUser := [65, 66, 67, 68], remoteUser := [97, 98, 99, 100],
    transactionId := [1, 2, 3] }

/-- A new source address, different from the one the client is bound to. -/
def c10Remote : WuAddress := { host := 1660944385, port := 7777 }

/-- The fixture client after rebinding to c10Remote. -/
def c10Rebound : WuClient :=
  { hsClient with localSctpPort := c10Remote.port, address := c10Remote }

/-- Witness for c10_stun_rebind: the handshake fixture client, already
bound to one address, is rebound to source address 99.0.0.1:7777. -/
theorem c10_stun_rebind_witness :
    WuFindClientByCreds (WuHandleStun c10Wu c10Stun c10Remote).1.clients
        c10Stun.serverUser c10Stun.remoteUser = some c10Rebound ∧
    c10Rebound ∈ (WuHandleStun c10Wu c10Stun c10Remote).1.clients ∧
    (WuHandleStun c10Wu c10Stun c10Remote).2 =
      [{ transactionId := c10Stun.transactionId,
         xorPort := ByteSwap16 (c10Remote.port ^^^ kStunXorMagic),
         xorAddress := ByteSwap32 (c10Remote.host ^^^ kStunCookie),
         integrityKey := hsClient.serverPassword }] :=
  c10_stun_rebind c10Wu c10Stun c10Remote hsClient rfl
